import Mathlib

/-!
Shallow embedding of `src/urlValidator.py` (bittarwork/URL-projects).

The program fetches one web page, validates the URL, extracts SEO signals
and computes a heuristic score.  Network I/O (requests.get, the TLS
handshake) and the third-party HTML parser (BeautifulSoup) are modelled by
explicit parameters: a `FetchOutcome` describing the transport-level result
of one HTTP GET, and a `String → Soup` function giving the parsed view of a
body.  All pure logic (the scheme regex, the status-code dispatch, the
default placeholders, the link/alt filters, the ratio, the scoring
function, `main`'s control flow) is translated line by line from the
source.  Python floats are modelled by `ℚ`.
-/

/-- Transport-level outcome of one `requests.get` call: the four cases
distinguished by the `try/except` in `get_status_code` (lines 16-25). -/
inductive FetchOutcome where
  | success (status : Int) (body : String)
  | timeout
  | tooManyRedirects
  | requestException (msg : String)
deriving DecidableEq

/-- The heterogeneous status value the Python code passes around: either an
integer HTTP status code or an error label string. -/
inductive StatusValue where
  | code (n : Int)
  | label (s : String)
deriving DecidableEq

/-- How a status value renders inside a Python f-string:
an int prints in decimal, a string prints as itself. -/
def StatusValue.toOutputString : StatusValue → String
  | .code n => toString n
  | .label s => s

/-- The `headings` dict built at lines 46-53: one list of stripped heading
texts per level h1..h6, in document order. -/
structure Headings where
  h1 : List String
  h2 : List String
  h3 : List String
  h4 : List String
  h5 : List String
  h6 : List String
deriving DecidableEq

/-- Parsed view of an HTML body, i.e. the results of the BeautifulSoup
queries that `extract_page_info` performs (BeautifulSoup itself is a
third-party library, so the document is modelled by what the code reads
from it):
* `titleString`: `some t` when a `<title>` element exists, where `t` is
  `soup.title.string` (itself optional — an empty `<title>` has no string);
* `descriptionContent` / `keywordsContent`: the `content` attribute of the
  first `<meta name="description">` / `<meta name="keywords">` element,
  `none` when no such element exists;
* `anchorHrefs`: the `href` of every `<a>` that has one, document order;
* `headings`: the heading texts per level;
* `imgAlts`: one entry per `<img>`, `some alt` when the element has an
  `alt` attribute (possibly empty), `none` otherwise;
* `textContent`: `soup.get_text()`, the visible text of the document;
* `viewportMeta`: whether a `<meta name="viewport">` element exists. -/
structure Soup where
  titleString : Option (Option String)
  descriptionContent : Option String
  keywordsContent : Option String
  anchorHrefs : List String
  headings : Headings
  imgAlts : List (Option String)
  textContent : String
  viewportMeta : Bool
deriving DecidableEq

/-- Page load time: elapsed seconds of the timing fetch, or the
`float('inf')` sentinel returned when that fetch fails (line 155). -/
inductive LoadTime where
  | finite (seconds : ℚ)
  | inf
deriving DecidableEq

/-- Python `<` on a load time and a number: `inf < n` is false. -/
def LoadTime.ltQ : LoadTime → ℚ → Bool
  | .finite t, q => decide (t < q)
  | .inf, _ => false

/-- The dict returned by `extract_page_info` (lines 67-78).  `title` is
optional because `soup.title.string` can be Python `None`. -/
structure PageInfo where
  title : Option String
  description : String
  keywords : String
  internal_links : List String
  external_links : List String
  headings : Headings
  alt_tags : List String
  text_to_html_ratio : ℚ
  page_load_time : LoadTime
  mobile_friendly : Bool
deriving DecidableEq

/-- Python `str.startswith(pre)`: the characters of `pre` are a prefix of
the characters of `s`. -/
def pyStartsWith (s pre : String) : Bool := pre.data.isPrefixOf s.data

/-- Python `str.lower()` restricted to what the regex needs: each character
lowered (ASCII letters map to their lowercase forms). -/
def pyToLower (s : String) : String := String.mk (s.data.map Char.toLower)

/-- Python truthiness of a string: nonempty. -/
def pyTruthy (s : String) : Bool := !s.data.isEmpty

/-- Python truthiness of an optional string: not `None` and nonempty. -/
def pyTruthyOpt : Option String → Bool
  | none => false
  | some s => pyTruthy s

namespace URLValidator

/-- `_is_valid_url` (lines 91-96): `re.match` of the case-insensitive
anchored regex `(https?|ftp)://`, i.e. the string starts, ignoring case,
with `http://`, `https://` or `ftp://`. -/
def _is_valid_url (url : String) : Bool :=
  let l := pyToLower url
  pyStartsWith l "http://" || pyStartsWith l "https://" || pyStartsWith l "ftp://"

/-- `is_valid_format` (lines 13-14): the regex check and the third-party
`validators.url` syntax check must both pass.  The library predicate is a
parameter (`validatorsUrl`); Python's `and` short-circuits, which `&&`
mirrors. -/
def is_valid_format (validatorsUrl : String → Bool) (url : String) : Bool :=
  _is_valid_url url && validatorsUrl url

/-- `get_status_code` (lines 16-25): one GET, no retries; on success the
pair (status_code, body), on each exception an error label and no body. -/
def get_status_code : FetchOutcome → StatusValue × Option String
  | .success n body => (.code n, some body)
  | .timeout => (.label "Request Timeout", none)
  | .tooManyRedirects => (.label "Too Many Redirects", none)
  | .requestException msg => (.label ("Request Exception: " ++ msg), none)

/-- `is_https` (lines 27-28): literal `str.startswith('https://')`. -/
def is_https (url : String) : Bool := pyStartsWith url "https://"

/-- `_measure_page_load_time` (lines 150-155): elapsed seconds of a second,
independent GET, or `float('inf')` when that GET raises.  The outcome of
that GET is the parameter: `some t` = success taking `t` seconds. -/
def _measure_page_load_time : Option ℚ → LoadTime
  | some t => .finite t
  | none => .inf

/-- `_is_mobile_friendly` (lines 157-159): a viewport meta element exists. -/
def _is_mobile_friendly (soup : Soup) : Bool := soup.viewportMeta

/-- `extract_page_info` (lines 30-78).  `soupOf` is the BeautifulSoup
parser (body text to parsed view), `loadOutcome` the outcome of the timing
fetch, `outcome` the outcome of the primary fetch.  If the status is not
the integer 200 the error string is returned and nothing is parsed;
otherwise every field of the page-info dict is computed from the soup.
(When the status is 200 the body is always present, so `getD ""` on the
content is never exercised with `none`.) -/
def extract_page_info (soupOf : String → Soup) (loadOutcome : Option ℚ)
    (outcome : FetchOutcome) : Except String PageInfo :=
  let r := get_status_code outcome
  let status_code := r.1
  if status_code ≠ StatusValue.code 200 then
    Except.error ("Error: Status code " ++ status_code.toOutputString)
  else
    let content := r.2.getD ""
    let soup := soupOf content
    let title : Option String :=
      match soup.titleString with
      | some s => s
      | none => some "No Title"
    let description_content : String :=
      match soup.descriptionContent with
      | some c => c
      | none => "No Description"
    let keywords_content : String :=
      match soup.keywordsContent with
      | some c => c
      | none => "No Keywords"
    let internal_links := soup.anchorHrefs.filter (fun h => pyStartsWith h "/")
    let external_links := soup.anchorHrefs.filter (fun h => !pyStartsWith h "/")
    let alt_tags := soup.imgAlts.filterMap id
    let text_length : ℕ := soup.textContent.length
    let html_length : ℕ := content.length
    let text_to_html_ratio : ℚ :=
      if html_length > 0 then (text_length : ℚ) / (html_length : ℚ) else 0
    let page_load_time := _measure_page_load_time loadOutcome
    let mobile_friendly := _is_mobile_friendly soup
    Except.ok
      { title := title
        description := description_content
        keywords := keywords_content
        internal_links := internal_links
        external_links := external_links
        headings := soup.headings
        alt_tags := alt_tags
        text_to_html_ratio := text_to_html_ratio
        page_load_time := page_load_time
        mobile_friendly := mobile_friendly }

/-- Outcome of the one attempted TLS handshake in `check_ssl_certificate`:
the leaf certificate in PEM form, or the description of the raised
exception. -/
inductive TlsOutcome where
  | cert (pem : String)
  | failure (msg : String)
deriving DecidableEq

/-- `check_ssl_certificate` (lines 80-89): non-HTTPS URLs get the fixed
message with no handshake attempted; otherwise the host is the URL with
`https://` removed (Python `str.replace` removes every occurrence, as does
`String.replace`) and the handshake outcome (`tls host`) is the
certificate or an error string. -/
def check_ssl_certificate (tls : String → TlsOutcome) (url : String) : String :=
  if is_https url = false then "No SSL Certificate for non-HTTPS URLs"
  else
    let host := url.replace "https://" ""
    match tls host with
    | .cert c => c
    | .failure e => "SSL Certificate Error: " ++ e

/-- Title rule of `_seo_analysis` (lines 102-106): 10 points for a truthy
title of at most 60 characters, else 5 for any truthy title. -/
def titlePoints (title : Option String) : ℕ :=
  if pyTruthyOpt title && decide ((title.getD "").length ≤ 60) then 10
  else if pyTruthyOpt title then 5
  else 0

/-- Description rule (lines 108-112): 10 points for a truthy description of
length in [150,160], else 5 for any truthy description. -/
def descriptionPoints (description : String) : ℕ :=
  if pyTruthy description && decide (150 ≤ description.length ∧ description.length ≤ 160) then 10
  else if pyTruthy description then 5
  else 0

/-- Keywords rule (lines 114-116): 10 points for a truthy keywords value. -/
def keywordsPoints (keywords : String) : ℕ :=
  if pyTruthy keywords then 10 else 0

/-- h1 rule (lines 119-120): 10 points when the h1 list is nonempty. -/
def h1Points (headings : Headings) : ℕ :=
  if !headings.h1.isEmpty then 10 else 0

/-- h2 rule (lines 121-122): 5 points when the h2 list is nonempty. -/
def h2Points (headings : Headings) : ℕ :=
  if !headings.h2.isEmpty then 5 else 0

/-- Internal-links rule (lines 125-126): 10 points when nonempty. -/
def internalLinksPoints (internal_links : List String) : ℕ :=
  if !internal_links.isEmpty then 10 else 0

/-- External-links rule (lines 127-128): 10 points when nonempty. -/
def externalLinksPoints (external_links : List String) : ℕ :=
  if !external_links.isEmpty then 10 else 0

/-- Alt-tags rule (lines 131-132): 10 points when nonempty. -/
def altTagsPoints (alt_tags : List String) : ℕ :=
  if !alt_tags.isEmpty then 10 else 0

/-- Ratio rule (lines 135-136): 10 points when the ratio exceeds 0.1. -/
def ratioPoints (text_to_html_ratio : ℚ) : ℕ :=
  if decide ((1 : ℚ)/10 < text_to_html_ratio) then 10 else 0

/-- Load-time rule (lines 139-142): 10 points below 3 s, else 5 below 5 s. -/
def loadTimePoints (page_load_time : LoadTime) : ℕ :=
  if page_load_time.ltQ 3 then 10
  else if page_load_time.ltQ 5 then 5
  else 0

/-- Mobile rule (lines 145-146): 10 points when mobile friendly. -/
def mobilePoints (mobile_friendly : Bool) : ℕ :=
  if mobile_friendly then 10 else 0

/-- `_seo_analysis` (lines 98-148): `score` starts at 0 and each if-block
adds its points independently, so the result is the sum of the per-rule
awards, one addend per block in source order.  Parameter order follows the
Python signature. -/
def _seo_analysis (title : Option String) (description : String)
    (keywords : String) (headings : Headings) (alt_tags : List String)
    (text_to_html_ratio : ℚ) (page_load_time : LoadTime)
    (mobile_friendly : Bool) (internal_links external_links : List String) : ℕ :=
  titlePoints title + descriptionPoints description + keywordsPoints keywords +
    h1Points headings + h2Points headings +
    internalLinksPoints internal_links + externalLinksPoints external_links +
    altTagsPoints alt_tags + ratioPoints text_to_html_ratio +
    loadTimePoints page_load_time + mobilePoints mobile_friendly

/-- Exit modes of `main` (lines 185-222). `uncaughtTypeError` is the path
where `status_code` is an int, `page_info` is an error string, and
`page_info['title']` subscripts a string with `'title'`, raising an
uncaught `TypeError` that terminates the process. -/
inductive MainResult where
  | report (statusCode : Int) (sslInfo : String) (seoScore : ℕ)
  | fetchErrorLine (status : String)
  | invalidFormatLine
  | uncaughtTypeError
deriving DecidableEq

/-- `main` (lines 185-222): validate the format; on success run the first
fetch (`outcome1`), `extract_page_info` with its own fetch (`outcome2`) and
timing fetch (`loadOutcome`), and the certificate check; if the status is
an int, print the report — which subscripts `page_info['title']` and so
raises `TypeError` whenever `extract_page_info` returned an error string —
otherwise print the error line.  Logging is side-effect-only and carries no
data, so it is not modelled. -/
def mainRun (validatorsUrl : String → Bool) (soupOf : String → Soup)
    (outcome1 outcome2 : FetchOutcome) (loadOutcome : Option ℚ)
    (tls : String → TlsOutcome) (url : String) : MainResult :=
  if is_valid_format validatorsUrl url then
    let status_code := (get_status_code outcome1).1
    let page_info := extract_page_info soupOf loadOutcome outcome2
    let ssl_info := check_ssl_certificate tls url
    match status_code with
    | .code n =>
      match page_info with
      | .ok info =>
        .report n ssl_info
          (_seo_analysis info.title info.description info.keywords
            info.headings info.alt_tags info.text_to_html_ratio
            info.page_load_time info.mobile_friendly
            info.internal_links info.external_links)
      | .error _ => .uncaughtTypeError
    | .label s => .fetchErrorLine s
  else .invalidFormatLine

end URLValidator

/-- A soup with none of the queried elements: the parse of a page that has
no title, meta tags, anchors, headings, images or text. -/
def emptySoup : Soup :=
  { titleString := none
    descriptionContent := none
    keywordsContent := none
    anchorHrefs := []
    headings := { h1 := [], h2 := [], h3 := [], h4 := [], h5 := [], h6 := [] }
    imgAlts := []
    textContent := ""
    viewportMeta := false }

/-- A 155-character description, for the maximal-score combination. -/
def desc155 : String := String.mk (List.replicate 155 'a')

/-- The heading map of a page with one h1 and one h2, for the
maximal-score combination. -/
def headingsH1H2 : Headings :=
  { h1 := ["Main"], h2 := ["Sub"], h3 := [], h4 := [], h5 := [], h6 := [] }

set_option maxRecDepth 4000

section ScoreBounds

open URLValidator

/-- The ratio rule awards its 10 points at any ratio above 0.1. -/
theorem ratioPoints_of_gt {r : ℚ} (h : (1 : ℚ)/10 < r) : ratioPoints r = 10 := by
  unfold ratioPoints; rw [if_pos (decide_eq_true h)]

/-- The load-time rule awards its 10 points below 3 seconds. -/
theorem loadTimePoints_fast {t : ℚ} (h : t < 3) :
    loadTimePoints (LoadTime.finite t) = 10 := by
  unfold loadTimePoints LoadTime.ltQ; simp [h]

/-- The title rule awards at most 10 points, always a multiple of 5. -/
theorem titlePoints_bound (t : Option String) :
    titlePoints t ≤ 10 ∧ 5 ∣ titlePoints t := by
  unfold titlePoints; split_ifs <;> decide

/-- The description rule awards at most 10 points, a multiple of 5. -/
theorem descriptionPoints_bound (d : String) :
    descriptionPoints d ≤ 10 ∧ 5 ∣ descriptionPoints d := by
  unfold descriptionPoints; split_ifs <;> decide

/-- The keywords rule awards at most 10 points, a multiple of 5. -/
theorem keywordsPoints_bound (k : String) :
    keywordsPoints k ≤ 10 ∧ 5 ∣ keywordsPoints k := by
  unfold keywordsPoints; split_ifs <;> decide

/-- The h1 rule awards at most 10 points, a multiple of 5. -/
theorem h1Points_bound (h : Headings) : h1Points h ≤ 10 ∧ 5 ∣ h1Points h := by
  unfold h1Points; split_ifs <;> decide

/-- The h2 rule awards at most 5 points, a multiple of 5. -/
theorem h2Points_bound (h : Headings) : h2Points h ≤ 5 ∧ 5 ∣ h2Points h := by
  unfold h2Points; split_ifs <;> decide

/-- The internal-links rule awards at most 10 points, a multiple of 5. -/
theorem internalLinksPoints_bound (l : List String) :
    internalLinksPoints l ≤ 10 ∧ 5 ∣ internalLinksPoints l := by
  unfold internalLinksPoints; split_ifs <;> decide

/-- The external-links rule awards at most 10 points, a multiple of 5. -/
theorem externalLinksPoints_bound (l : List String) :
    externalLinksPoints l ≤ 10 ∧ 5 ∣ externalLinksPoints l := by
  unfold externalLinksPoints; split_ifs <;> decide

/-- The alt-tags rule awards at most 10 points, a multiple of 5. -/
theorem altTagsPoints_bound (l : List String) :
    altTagsPoints l ≤ 10 ∧ 5 ∣ altTagsPoints l := by
  unfold altTagsPoints; split_ifs <;> decide

/-- The ratio rule awards at most 10 points, a multiple of 5. -/
theorem ratioPoints_bound (r : ℚ) : ratioPoints r ≤ 10 ∧ 5 ∣ ratioPoints r := by
  unfold ratioPoints; split_ifs <;> decide

/-- The load-time rule awards at most 10 points, a multiple of 5. -/
theorem loadTimePoints_bound (t : LoadTime) :
    loadTimePoints t ≤ 10 ∧ 5 ∣ loadTimePoints t := by
  unfold loadTimePoints; split_ifs <;> decide

/-- The mobile rule awards at most 10 points, a multiple of 5. -/
theorem mobilePoints_bound (m : Bool) :
    mobilePoints m ≤ 10 ∧ 5 ∣ mobilePoints m := by
  unfold mobilePoints; split_ifs <;> decide

end ScoreBounds

/-- C1 counterexample: the spec's maximal signal combination (title "Home"
of ≤60 chars, description of length 155, keywords present, h1 and h2
present, internal and external links nonempty, alt tags nonempty, ratio
0.2, load time 2.0 s, mobile friendly) scores 105, not the claimed 115. -/
theorem c1_seo_max_counterexample :
    URLValidator._seo_analysis (some "Home") desc155 "seo, web" headingsH1H2
      ["logo"] ((1 : ℚ)/5) (LoadTime.finite 2) true ["/about"] ["https://ex.org"] = 105
    ∧ (105 : ℕ) ≠ 115 := by
  constructor
  · unfold URLValidator._seo_analysis
    rw [ratioPoints_of_gt (show (1 : ℚ)/10 < 1/5 by norm_num),
      loadTimePoints_fast (show (2 : ℚ) < 3 by norm_num)]
    decide
  · decide

/-- C1 (amended): the maximum attainable SEO score is 105 — every
combination of signals scores at most 105, and the spec's maximal
combination attains exactly 105. -/
theorem c1_seo_max_105 :
    (∀ (title : Option String) (description keywords : String)
        (headings : Headings) (alt_tags : List String)
        (ratio : ℚ) (load : LoadTime) (mobile : Bool)
        (il el : List String),
      URLValidator._seo_analysis title description keywords headings alt_tags
        ratio load mobile il el ≤ 105)
    ∧ URLValidator._seo_analysis (some "Home") desc155 "seo, web" headingsH1H2
        ["logo"] ((1 : ℚ)/5) (LoadTime.finite 2) true ["/about"] ["https://ex.org"] = 105 := by
  constructor
  · intro title description keywords headings alt_tags ratio load mobile il el
    obtain ⟨h1, _⟩ := titlePoints_bound title
    obtain ⟨h2, _⟩ := descriptionPoints_bound description
    obtain ⟨h3, _⟩ := keywordsPoints_bound keywords
    obtain ⟨h4, _⟩ := h1Points_bound headings
    obtain ⟨h5, _⟩ := h2Points_bound headings
    obtain ⟨h6, _⟩ := internalLinksPoints_bound il
    obtain ⟨h7, _⟩ := externalLinksPoints_bound el
    obtain ⟨h8, _⟩ := altTagsPoints_bound alt_tags
    obtain ⟨h9, _⟩ := ratioPoints_bound ratio
    obtain ⟨h10, _⟩ := loadTimePoints_bound load
    obtain ⟨h11, _⟩ := mobilePoints_bound mobile
    unfold URLValidator._seo_analysis
    omega
  · unfold URLValidator._seo_analysis
    rw [ratioPoints_of_gt (show (1 : ℚ)/10 < 1/5 by norm_num),
      loadTimePoints_fast (show (2 : ℚ) < 3 by norm_num)]
    decide

/-- C10: every SEO score the code can produce is a multiple of 5 and lies
between 0 and 105 inclusive (the lower bound holds because the score is a
natural number built from nonnegative awards). -/
theorem c10_seo_score_range (title : Option String) (description keywords : String)
    (headings : Headings) (alt_tags : List String) (ratio : ℚ)
    (load : LoadTime) (mobile : Bool) (il el : List String) :
    5 ∣ URLValidator._seo_analysis title description keywords headings alt_tags
        ratio load mobile il el
    ∧ URLValidator._seo_analysis title description keywords headings alt_tags
        ratio load mobile il el ≤ 105 := by
  obtain ⟨h1, d1⟩ := titlePoints_bound title
  obtain ⟨h2, d2⟩ := descriptionPoints_bound description
  obtain ⟨h3, d3⟩ := keywordsPoints_bound keywords
  obtain ⟨h4, d4⟩ := h1Points_bound headings
  obtain ⟨h5, d5⟩ := h2Points_bound headings
  obtain ⟨h6, d6⟩ := internalLinksPoints_bound il
  obtain ⟨h7, d7⟩ := externalLinksPoints_bound el
  obtain ⟨h8, d8⟩ := altTagsPoints_bound alt_tags
  obtain ⟨h9, d9⟩ := ratioPoints_bound ratio
  obtain ⟨h10, d10⟩ := loadTimePoints_bound load
  obtain ⟨h11, d11⟩ := mobilePoints_bound mobile
  unfold URLValidator._seo_analysis
  omega

/-- C3 counterexample: the claim asserts is_https("httpsx://x") is true,
but `str.startswith('https://')` requires the full eight-character
substring, and "httpsx://x" does not begin with it. -/
theorem c3_is_https_counterexample :
    ¬ (URLValidator.is_https "httpsx://x" = true) := by decide

/-- C3 (amended): is_https is a literal prefix check on the URL string —
is_https("http://example.com") is false, is_https("https://example.com")
is true, and is_https("httpsx://x") is false, because the entire prefix
"https://" must be present. -/
theorem c3_is_https_prefix_check :
    URLValidator.is_https "http://example.com" = false
    ∧ URLValidator.is_https "https://example.com" = true
    ∧ URLValidator.is_https "httpsx://x" = false := by decide

/-- C4: is_valid_format is true iff the case-insensitive scheme regex and
the general-purpose URL-syntax check (the `validators.url` library
predicate, a parameter of the model) both pass; in particular, whenever
the regex check fails the result is false.  Both checks are pure string
predicates — the source makes no network call here. -/
theorem c4_is_valid_format_conj (vu : String → Bool) (url : String) :
    (URLValidator.is_valid_format vu url = true
      ↔ URLValidator._is_valid_url url = true ∧ vu url = true)
    ∧ (URLValidator._is_valid_url url = false
      → URLValidator.is_valid_format vu url = false) := by
  constructor
  · simp [URLValidator.is_valid_format]
  · intro h
    simp [URLValidator.is_valid_format, h]

/-- C4 witness: a string with no URL scheme fails validation even when the
library predicate accepts everything. -/
theorem c4_is_valid_format_conj_witness :
    URLValidator.is_valid_format (fun _ => true) "notaurl" = false :=
  (c4_is_valid_format_conj (fun _ => true) "notaurl").2 (by decide)

/-- C5: whenever the primary fetch's status value is not the integer 200 —
including every error label — extract_page_info returns the string
"Error: Status code {status}"; the result does not depend on the parser
(`soupOf`) or the timing fetch, so no HTML parsing occurs. -/
theorem c5_extract_non200_error (soupOf : String → Soup) (loadOutcome : Option ℚ)
    (outcome : FetchOutcome)
    (h : (URLValidator.get_status_code outcome).1 ≠ StatusValue.code 200) :
    URLValidator.extract_page_info soupOf loadOutcome outcome
      = Except.error ("Error: Status code "
          ++ ((URLValidator.get_status_code outcome).1).toOutputString) := by
  unfold URLValidator.extract_page_info
  simp [h]

/-- C5 witness: a timeout on the primary fetch yields exactly
"Error: Status code Request Timeout". -/
theorem c5_extract_non200_error_witness :
    URLValidator.extract_page_info (fun _ => emptySoup) none FetchOutcome.timeout
      = Except.error "Error: Status code Request Timeout" := by
  rw [c5_extract_non200_error (fun _ => emptySoup) none FetchOutcome.timeout (by decide)]
  congr 1

/-- C6: get_status_code maps each transport outcome of its single GET as
the spec states: success to (status_code, body); timeout to the label
"Request Timeout" with no body; excessive redirects to "Too Many
Redirects" with no body; any other request exception to
"Request Exception: <description>" with no body.  The function consumes
exactly one fetch outcome, so there are no retries. -/
theorem c6_get_status_code_cases :
    (∀ (n : Int) (body : String),
      URLValidator.get_status_code (FetchOutcome.success n body)
        = (StatusValue.code n, some body))
    ∧ URLValidator.get_status_code FetchOutcome.timeout
        = (StatusValue.label "Request Timeout", none)
    ∧ URLValidator.get_status_code FetchOutcome.tooManyRedirects
        = (StatusValue.label "Too Many Redirects", none)
    ∧ ∀ msg : String,
      URLValidator.get_status_code (FetchOutcome.requestException msg)
        = (StatusValue.label ("Request Exception: " ++ msg), none) :=
  ⟨fun _ _ => rfl, rfl, rfl, fun _ => rfl⟩

/-- C7: on a 200 response, the extracted text_to_html_ratio is exactly
(visible text length) / (raw body length) when the body is nonempty, and
0 when the body is empty. -/
theorem c7_text_to_html_ratio (soupOf : String → Soup) (loadOutcome : Option ℚ)
    (body : String) :
    (URLValidator.extract_page_info soupOf loadOutcome
        (FetchOutcome.success 200 body)).map (fun i => i.text_to_html_ratio)
      = Except.ok (if 0 < body.length
          then ((soupOf body).textContent.length : ℚ) / (body.length : ℚ)
          else 0) := by
  unfold URLValidator.extract_page_info URLValidator.get_status_code
  simp [Except.map]

/-- C8: for every URL failing the HTTPS prefix check,
check_ssl_certificate returns the fixed no-certificate message; the result
does not depend on the TLS handshake parameter, so no connection is
attempted. -/
theorem c8_ssl_non_https (tls : String → URLValidator.TlsOutcome) (url : String)
    (h : URLValidator.is_https url = false) :
    URLValidator.check_ssl_certificate tls url
      = "No SSL Certificate for non-HTTPS URLs" := by
  unfold URLValidator.check_ssl_certificate
  simp [h]

/-- C8 witness: an http URL gets the fixed message even when every
handshake would fail. -/
theorem c8_ssl_non_https_witness :
    URLValidator.check_ssl_certificate
      (fun _ => URLValidator.TlsOutcome.failure "unreachable") "http://example.com"
      = "No SSL Certificate for non-HTTPS URLs" :=
  c8_ssl_non_https (fun _ => URLValidator.TlsOutcome.failure "unreachable")
    "http://example.com" (by decide)

/-- C2 (code bug): for a page whose HTML has no meta-keywords element,
extract_page_info does yield the default "No Keywords", but the scoring
code's keywords rule (`if keywords:`) treats that nonempty default string
as truthy and awards 10 points, not the 0 the spec's "present
(non-default)" rule requires. -/
theorem c2_keywords_default_scores_10 :
    (URLValidator.extract_page_info (fun _ => emptySoup) none
        (FetchOutcome.success 200 "<p>x</p>")).map (fun i => i.keywords)
      = Except.ok "No Keywords"
    ∧ URLValidator.keywordsPoints "No Keywords" = 10 := by
  constructor
  · rfl
  · decide

/-- C9 (code bug): with a valid-format URL, a first fetch returning the
integer status 404 and a second fetch also returning 404, `main` passes
its `isinstance(status_code, int)` guard, `extract_page_info` returns the
error string, and `page_info['title']` subscripts that string, raising an
uncaught TypeError that terminates the process — contradicting the claim
that every transport outcome is reported via return strings. -/
theorem c9_main_typeerror_crash :
    URLValidator.mainRun (fun _ => true) (fun _ => emptySoup)
      (FetchOutcome.success 404 "") (FetchOutcome.success 404 "")
      none (fun _ => URLValidator.TlsOutcome.failure "no tls") "http://example.com"
      = URLValidator.MainResult.uncaughtTypeError := by decide
